import Mathlib

/-!
Verification of the face-detection Streamlit application (src/app.py).

The application is UI glue around external library calls (OpenCV, PIL,
Streamlit).  The code owned by the repository is embedded directly from
src/app.py; the external capabilities (cascade detection, rectangle
drawing, PNG codec, slider widgets) are modelled from the specification
that documents their contracts, each such definition carrying a doc
comment that starts with "Modelled from the spec:".
-/

namespace FaceApp

/-- A pixel is a triple of 8-bit channel values.  The component order is
whatever the surrounding context says (RGB for PIL buffers, BGR for
OpenCV buffers). -/
abbrev Pixel := Nat × Nat × Nat

/-- An image is a list of rows of pixels, as in a NumPy HxWx3 array. -/
abbrev Img := List (List Pixel)

/-- Value of a single hexadecimal digit, as accepted by Python's
`int(s, 16)` for a plain digit character: 0-9, a-f, A-F. -/
def hexDigitVal? (c : Char) : Option Nat :=
  if '0' ≤ c ∧ c ≤ '9' then some (c.toNat - '0'.toNat)
  else if 'a' ≤ c ∧ c ≤ 'f' then some (c.toNat - 'a'.toNat + 10)
  else if 'A' ≤ c ∧ c ≤ 'F' then some (c.toNat - 'A'.toNat + 10)
  else none

/-- Python `int(s, 16)` on a string of plain hexadecimal digits: fails on
the empty string and on any non-hex-digit character, otherwise folds the
digits in base 16.  (Python also tolerates surrounding whitespace, a
sign, and interior underscores; no theorem below touches those inputs.) -/
def intBase16? (l : List Char) : Option Nat :=
  if l.isEmpty then none
  else l.foldlM (fun acc c => (hexDigitVal? c).map (fun d => 16 * acc + d)) 0

/-- Python `str.lstrip` with argument a single character set: drops every
leading occurrence of that character. -/
def lstripChar (strip : Char) : List Char → List Char
  | [] => []
  | c :: rest => if c = strip then lstripChar strip rest else c :: rest

/-- Python slice `l[i:i+2]`. -/
def slice2 (l : List Char) (i : Nat) : List Char :=
  (l.drop i).take 2

/-- Embedding of `hex_to_bgr` from src/app.py lines 55-59: strip leading
hash signs, parse the 2-character slices at offsets 0, 2, 4 as base-16
integers giving (R, G, B), and return the reversed triple (B, G, R).
`none` stands for the `ValueError` that `int` raises on malformed
input. -/
def hex_to_bgr (hex_color : List Char) : Option Pixel :=
  let h := lstripChar '#' hex_color
  match intBase16? (slice2 h 0), intBase16? (slice2 h 2), intBase16? (slice2 h 4) with
  | some r, some g, some b => some (b, g, r)
  | _, _, _ => none

end FaceApp

namespace FaceApp

/-- A detected region, as returned by the external detector: position and
size of an axis-aligned bounding box. -/
structure Region where
  x : Nat
  y : Nat
  w : Nat
  h : Nat
deriving DecidableEq, Repr

/-- Modelled from the spec: a candidate detection produced by the
external cascade's multi-scale scan, together with the number of
overlapping neighbour detections supporting it (glossary: "Min
Neighbors: minimum number of overlapping candidate detections required
to confirm a region as a face"). -/
structure Candidate where
  region : Region
  neighbors : Nat
deriving DecidableEq, Repr

/-- A grayscale image: rows of 8-bit intensities. -/
abbrev GrayImg := List (List Nat)

/-- Modelled from the spec: the external cascade classifier.  Its
internal multi-scale scan is out of scope; it is abstracted as the
candidate detections it produces for a given grayscale image and scale
factor. -/
structure Cascade where
  candidates : GrayImg → ℚ → List Candidate

/-- Modelled from the spec: `detectMultiScale` confirms exactly the
candidates supported by at least `minNeighbors` overlapping detections
and not smaller than the minimum-size floor, and returns their
regions. -/
def detectMultiScale (cascade : Cascade) (gray : GrayImg) (scaleFactor : ℚ)
    (minNeighbors : Nat) (minSize : Nat × Nat) : List Region :=
  ((cascade.candidates gray scaleFactor).filter
    (fun c => minNeighbors ≤ c.neighbors ∧ minSize.1 ≤ c.region.w ∧
      minSize.2 ≤ c.region.h)).map (fun c => c.region)

/-- Embedding of `cv2.cvtColor(img, cv2.COLOR_RGB2BGR)` (and of its
inverse BGR2RGB): swap the first and third channel of every pixel. -/
def cvtSwapRB (img : Img) : Img :=
  img.map (fun row => row.map (fun p => (p.2.2, p.2.1, p.1)))

/-- Embedding of `cv2.cvtColor(img, cv2.COLOR_BGR2GRAY)` on 8-bit data:
OpenCV's fixed-point luma, Y = (B*1868 + G*9617 + R*4899 + 8192) >> 14. -/
def cvtBgrToGray (img : Img) : GrayImg :=
  img.map (fun row => row.map
    (fun p => (p.1 * 1868 + p.2.1 * 9617 + p.2.2 * 4899 + 8192) / 16384))

/-- Replication of a grayscale image into three equal channels, the
"gray-to-color" direction of the round trip named by the spec. -/
def grayToColor (g : GrayImg) : Img :=
  g.map (fun row => row.map (fun v => (v, v, v)))

/-- The "grayscale-to-color round trip" the spec's testable property
speaks of, stated from the spec's words: convert the image to grayscale
and replicate the intensity back into three channels. -/
def specGrayRoundTrip (img : Img) : Img :=
  grayToColor (cvtBgrToGray img)

/-- Modelled from the spec: a pixel lies on the 2-pixel-wide outline of
the rectangle with corners (x, y) and (x+w, y+h) when it is inside the
rectangle and within 2 pixels of one of its four edges. -/
def onBand (r : Region) (px py : Nat) : Prop :=
  r.x ≤ px ∧ px ≤ r.x + r.w ∧ r.y ≤ py ∧ py ≤ r.y + r.h ∧
    (px < r.x + 2 ∨ r.x + r.w < px + 2 ∨ py < r.y + 2 ∨ r.y + r.h < py + 2)

instance (r : Region) (px py : Nat) : Decidable (onBand r px py) := by
  unfold onBand; infer_instance

/-- One row of `cv2.rectangle`: recolour the pixels of row `py` that lie
on the outline band of `r`, starting at column `px`. -/
def drawRow (r : Region) (color : Pixel) (py : Nat) : Nat → List Pixel → List Pixel
  | _, [] => []
  | px, pix :: rest =>
      (if onBand r px py then color else pix) :: drawRow r color py (px + 1) rest

/-- Helper for `drawRect`: draw the band on every row, numbering the rows
from `py` upward. -/
def drawRows (r : Region) (color : Pixel) : Nat → Img → Img
  | _, [] => []
  | py, row :: rest => drawRow r color py 0 row :: drawRows r color (py + 1) rest

/-- Modelled from the spec: `cv2.rectangle(img, (x, y), (x+w, y+h),
color, 2)` recolours the pixels on the 2-pixel-wide outline of the
region, leaving every other pixel of the buffer unchanged. -/
def drawRect (img : Img) (r : Region) (color : Pixel) : Img :=
  drawRows r color 0 img

/-- The annotation loop of src/app.py lines 101-102: draw each detected
region in turn on the result buffer. -/
def annotateAll (img : Img) (faces : List Region) (color : Pixel) : Img :=
  faces.foldl (fun acc r => drawRect acc r color) img

/-- A wall-clock instant, as read by `datetime.now()`. -/
structure Timestamp where
  year : Nat
  month : Nat
  day : Nat
  hour : Nat
  minute : Nat
  second : Nat
deriving DecidableEq, Repr

/-- Zero-pad a number to a given width, as `strftime` numeric fields do. -/
def padNum (width n : Nat) : List Char :=
  let digits := (Nat.toDigits 10 n)
  List.replicate (width - digits.length) '0' ++ digits

/-- Embedding of `datetime.strftime` with format string YYYYMMDD_HHMMSS,
as used at src/app.py line 143. -/
def strftimeStamp (t : Timestamp) : List Char :=
  padNum 4 t.year ++ padNum 2 t.month ++ padNum 2 t.day ++ ['_'] ++
    padNum 2 t.hour ++ padNum 2 t.minute ++ padNum 2 t.second

/-- Modelled from the spec: the PNG byte stream produced by
`result_pil.save(img_buffer, format='PNG')`.  PNG is lossless, so the
stream is abstracted by the pixel grid it encodes; decoding recovers
exactly that grid. -/
structure PngBytes where
  payload : Img
deriving DecidableEq, Repr

/-- Modelled from the spec: decoding a PNG byte stream yields the encoded
pixel grid. -/
def pngDecode (p : PngBytes) : Img :=
  p.payload

/-- Dimensions of an image: (width of the first row, number of rows). -/
def dims (img : Img) : Nat × Nat :=
  ((img.headD []).length, img.length)

/-- Everything the success path of the script renders: the detected
regions, the annotated image (RGB, as displayed), the original OpenCV
buffer as it stands after the pipeline ran, the reported face count, the
download artifact and its filename. -/
structure RunOutput where
  faces : List Region
  annotated : Img
  originalBuffer : Img
  count : Nat
  artifact : PngBytes
  filename : List Char
deriving DecidableEq, Repr

/-- The body of the try block of src/app.py lines 83-159, for an uploaded
RGB image `image`.  `cascadeLoad` stands for
`cv2.CascadeClassifier(...)`: `Except.error msg` is the initialization
failure the spec calls ConfigurationError.  Any exception escaping the
block (including the `ValueError` from `hex_to_bgr`) is the `.error`
value. -/
def tryBlock (cascadeLoad : Except (List Char) Cascade) (image : Img)
    (scale_factor : ℚ) (min_neighbors : Nat) (rect_color : List Char)
    (now : Timestamp) : Except (List Char) RunOutput :=
  match cascadeLoad with
  | Except.error e => Except.error e
  | Except.ok face_cascade =>
    let opencv_image := cvtSwapRB image
    let gray := cvtBgrToGray opencv_image
    let faces := detectMultiScale face_cascade gray scale_factor min_neighbors (30, 30)
    match hex_to_bgr rect_color with
    | none => Except.error ("invalid literal for int() with base 16".data)
    | some bgr_color =>
      let result_image := annotateAll opencv_image faces bgr_color
      let result_pil := cvtSwapRB result_image
      Except.ok
        { faces := faces
          annotated := result_pil
          originalBuffer := opencv_image
          count := faces.length
          artifact := ⟨result_pil⟩
          filename := "face_detection_result_".data ++ strftimeStamp now ++ ".png".data }

/-- What one script run renders: the no-upload placeholder, the
`st.error` page produced by the except branch at lines 161-163, or the
results page. -/
inductive Render where
  | placeholder : Render
  | errorPage (msg : List Char) : Render
  | resultPage (out : RunOutput) : Render
deriving DecidableEq

/-- One run of the script body of src/app.py lines 68-167: nothing but a
placeholder without an upload; otherwise the try block, whose failure is
caught by `except Exception` and rendered through `st.error` with the
message prefix of line 162. -/
def runScript (upload : Option Img) (cascadeLoad : Except (List Char) Cascade)
    (scale_factor : ℚ) (min_neighbors : Nat) (rect_color : List Char)
    (now : Timestamp) : Render :=
  match upload with
  | none => Render.placeholder
  | some image =>
    match tryBlock cascadeLoad image scale_factor min_neighbors rect_color now with
    | Except.error e => Render.errorPage ("Error loading face detection model: ".data ++ e)
    | Except.ok out => Render.resultPage out

/-- Modelled from the spec: a Streamlit slider widget only ever yields a
value between its minimum and its maximum; any attempted out-of-range
choice is forced back into the range by the widget itself. -/
def slider {α : Type} [LinearOrder α] (min_value max_value choice : α) : α :=
  max min_value (min choice max_value)

/-- The two parameter sliders of src/app.py lines 30-45 feeding the
script: Scale Factor over [1.1, 2.0] and Min Neighbors over [1, 10]. -/
def appRun (sfChoice : ℚ) (mnChoice : Nat) (upload : Option Img)
    (cascadeLoad : Except (List Char) Cascade) (rect_color : List Char)
    (now : Timestamp) : Render :=
  runScript upload cascadeLoad (slider (11/10 : ℚ) 2 sfChoice)
    (slider 1 10 mnChoice) rect_color now

/-- Pixel lookup at column `px` of row `py`; `none` when out of bounds. -/
def getPx (img : Img) (px py : Nat) : Option Pixel :=
  (img.get? py).bind (fun row => row.get? px)

/-- A cascade that produces no candidate detections at all. -/
def cascadeNone : Cascade :=
  ⟨fun _ _ => []⟩

/-- A cascade with two fixed candidates, one strongly and one weakly
supported, used to exercise the confirmation threshold concretely. -/
def cascadeTwo : Cascade :=
  ⟨fun _ _ => [⟨⟨5, 5, 40, 40⟩, 6⟩, ⟨⟨0, 0, 35, 35⟩, 1⟩]⟩

/-- A one-pixel pure-red RGB image. -/
def imgRed : Img :=
  [[(255, 0, 0)]]

/-- The default rectangle colour string of the colour picker. -/
def colorGreen : List Char :=
  ['#', '0', '0', 'F', 'F', '0', '0']

/-- A malformed colour string: correct length, non-hex characters. -/
def colorBad : List Char :=
  ['#', 'G', 'G', 'G', 'G', 'G', 'G']

/-- A fixed wall-clock instant for concrete runs. -/
def ts0 : Timestamp :=
  ⟨2026, 1, 2, 3, 4, 5⟩

end FaceApp

namespace FaceApp

theorem hexDigitVal?_ne_hash {c : Char} {v : Nat} (h : hexDigitVal? c = some v) :
    c ≠ '#' := by
  intro heq
  subst heq
  simp [hexDigitVal?] at h

theorem intBase16?_pair {a b : Char} {va vb : Nat}
    (ha : hexDigitVal? a = some va) (hb : hexDigitVal? b = some vb) :
    intBase16? [a, b] = some (16 * va + vb) := by
  simp [intBase16?, ha, hb]

/-- C1: for every 7-character colour string of the form "#RRGGBB" built
from hexadecimal digit characters, `hex_to_bgr` parses each 2-digit pair
as an 8-bit integer and returns the triple reordered as (B, G, R). -/
theorem hex_to_bgr_parses_and_reorders
    (c1 c2 c3 c4 c5 c6 : Char) (v1 v2 v3 v4 v5 v6 : Nat)
    (h1 : hexDigitVal? c1 = some v1) (h2 : hexDigitVal? c2 = some v2)
    (h3 : hexDigitVal? c3 = some v3) (h4 : hexDigitVal? c4 = some v4)
    (h5 : hexDigitVal? c5 = some v5) (h6 : hexDigitVal? c6 = some v6) :
    hex_to_bgr ['#', c1, c2, c3, c4, c5, c6] =
      some (16 * v5 + v6, 16 * v3 + v4, 16 * v1 + v2) := by
  have hne : c1 ≠ '#' := hexDigitVal?_ne_hash h1
  simp [hex_to_bgr, lstripChar, hne, slice2,
    intBase16?_pair h1 h2, intBase16?_pair h3 h4, intBase16?_pair h5 h6]

/-- C1 witness: on the default colour "#00FF00" the utility yields the
(B, G, R) triple (0, 255, 0). -/
theorem hex_to_bgr_parses_and_reorders_witness :
    hex_to_bgr colorGreen = some (0, 255, 0) :=
  hex_to_bgr_parses_and_reorders '0' '0' 'F' 'F' '0' '0' 0 0 15 15 0 0
    rfl rfl rfl rfl rfl rfl

/-- C2: with the image (hence the cascade's candidates), the scale factor
and the minimum-size floor fixed, raising `minNeighbors` never increases
the number of regions returned by `detectMultiScale`. -/
theorem detect_count_antitone_in_minNeighbors
    (cascade : Cascade) (gray : GrayImg) (sf : ℚ) (ms : Nat × Nat)
    (m1 m2 : Nat) (hm : m1 ≤ m2) :
    (detectMultiScale cascade gray sf m2 ms).length ≤
      (detectMultiScale cascade gray sf m1 ms).length := by
  unfold detectMultiScale
  rw [List.length_map, List.length_map]
  refine List.Sublist.length_le (List.monotone_filter_right _ ?_)
  intro c hc
  simp only [decide_eq_true_eq] at hc ⊢
  exact ⟨le_trans hm hc.1, hc.2⟩

/-- C2 witness: with two candidates supported by 6 and 1 neighbours, the
count at `minNeighbors = 4` does not exceed the count at 2. -/
theorem detect_count_antitone_in_minNeighbors_witness :
    (detectMultiScale cascadeTwo [] 2 4 (30, 30)).length ≤
      (detectMultiScale cascadeTwo [] 2 2 (30, 30)).length :=
  detect_count_antitone_in_minNeighbors cascadeTwo [] 2 (30, 30) 2 4 (by decide)

/-- C5: when the cascade classifier cannot be initialized the run renders
exactly the descriptive error page of the except branch; no detection
output is produced, and the script still terminates in a rendered page,
so the failure is confined to that single run. -/
theorem config_error_surfaced (img : Img) (msg : List Char) (sf : ℚ)
    (mn : Nat) (color : List Char) (ts : Timestamp) :
    runScript (some img) (Except.error msg) sf mn color ts =
      Render.errorPage ("Error loading face detection model: ".data ++ msg) := by
  rfl

/-- C7: the regions and the annotated image produced by the pipeline do
not depend on the wall-clock instant, the only input that differs
between two otherwise identical runs; hence repeated runs with the same
image, parameters and colour agree on both. -/
theorem pipeline_deterministic
    (cascadeLoad : Except (List Char) Cascade) (img : Img) (sf : ℚ)
    (mn : Nat) (color : List Char) (ts1 ts2 : Timestamp) :
    (tryBlock cascadeLoad img sf mn color ts1).map
        (fun o => (o.faces, o.annotated)) =
      (tryBlock cascadeLoad img sf mn color ts2).map
        (fun o => (o.faces, o.annotated)) := by
  cases cascadeLoad with
  | error e => rfl
  | ok cascade =>
    cases hhex : hex_to_bgr color with
    | none => simp only [tryBlock, hhex]
    | some bgr =>
      simp only [tryBlock, hhex]
      rfl

/-- C9: whatever value the user tries to set, the slider widgets hand the
script a scale factor in [1.1, 2.0] and a neighbour count in [1, 10],
and the pipeline is invoked with exactly those widget values. -/
theorem params_within_widget_ranges (c1 : ℚ) (c2 : Nat) :
    (11/10 : ℚ) ≤ slider (11/10 : ℚ) 2 c1 ∧ slider (11/10 : ℚ) 2 c1 ≤ 2 ∧
    1 ≤ slider 1 10 c2 ∧ slider 1 10 c2 ≤ 10 ∧
    ∀ upload cascadeLoad color ts,
      appRun c1 c2 upload cascadeLoad color ts =
        runScript upload cascadeLoad (slider (11/10 : ℚ) 2 c1)
          (slider 1 10 c2) color ts := by
  refine ⟨le_max_left _ _, max_le (by norm_num) (min_le_right _ _),
    le_max_left _ _, max_le (by norm_num) (min_le_right _ _),
    fun _ _ _ _ => rfl⟩

theorem cvtSwapRB_cvtSwapRB (img : Img) : cvtSwapRB (cvtSwapRB img) = img := by
  simp [cvtSwapRB, List.map_map, Function.comp_def]

/-- Inversion of a successful try block: the cascade loaded, the colour
parsed, and the output is exactly the record the success path builds. -/
theorem tryBlock_ok_elim {cascadeLoad : Except (List Char) Cascade} {img : Img}
    {sf : ℚ} {mn : Nat} {color : List Char} {ts : Timestamp} {out : RunOutput}
    (hok : tryBlock cascadeLoad img sf mn color ts = Except.ok out) :
    ∃ face_cascade bgr_color,
      cascadeLoad = Except.ok face_cascade ∧
      hex_to_bgr color = some bgr_color ∧
      out =
        { faces := detectMultiScale face_cascade (cvtBgrToGray (cvtSwapRB img)) sf mn (30, 30)
          annotated := cvtSwapRB (annotateAll (cvtSwapRB img)
            (detectMultiScale face_cascade (cvtBgrToGray (cvtSwapRB img)) sf mn (30, 30)) bgr_color)
          originalBuffer := cvtSwapRB img
          count := (detectMultiScale face_cascade (cvtBgrToGray (cvtSwapRB img)) sf mn (30, 30)).length
          artifact := ⟨cvtSwapRB (annotateAll (cvtSwapRB img)
            (detectMultiScale face_cascade (cvtBgrToGray (cvtSwapRB img)) sf mn (30, 30)) bgr_color)⟩
          filename := "face_detection_result_".data ++ strftimeStamp ts ++ ".png".data } := by
  cases cascadeLoad with
  | error e => simp [tryBlock] at hok
  | ok cascade =>
    cases hhex : hex_to_bgr color with
    | none => simp [tryBlock, hhex] at hok
    | some bgr =>
      simp only [tryBlock, hhex, Except.ok.injEq] at hok
      exact ⟨cascade, bgr, rfl, rfl, hok.symm⟩

/-- C3 counterexample: a run on a pure-red one-pixel image with zero
detected regions reports count 0, yet its annotated output differs from
the grayscale-to-color round trip of the original, refuting the claimed
byte-identity. -/
theorem zero_faces_not_gray_roundtrip_counterexample :
    (tryBlock (Except.ok cascadeNone) imgRed 2 5 colorGreen ts0).toOption.map RunOutput.faces
      = some [] ∧
    (tryBlock (Except.ok cascadeNone) imgRed 2 5 colorGreen ts0).toOption.map RunOutput.count
      = some 0 ∧
    (tryBlock (Except.ok cascadeNone) imgRed 2 5 colorGreen ts0).toOption.map RunOutput.annotated
      ≠ some (specGrayRoundTrip imgRed) :=
  ⟨by decide, by decide, by decide⟩

/-- C3 (amended): for every run in which the detector returns zero
regions, the annotated output is byte-identical to the original uploaded
image (the lossless RGB-BGR-RGB channel-order round trip), and the
reported face count is 0. -/
theorem zero_faces_annotated_eq_original
    (cascadeLoad : Except (List Char) Cascade) (img : Img) (sf : ℚ) (mn : Nat)
    (color : List Char) (ts : Timestamp) (out : RunOutput)
    (hok : tryBlock cascadeLoad img sf mn color ts = Except.ok out)
    (hz : out.faces = []) :
    out.annotated = img ∧ out.count = 0 := by
  obtain ⟨cas, bgr, -, -, rfl⟩ := tryBlock_ok_elim hok
  simp only at hz ⊢
  rw [hz]
  exact ⟨by rw [show annotateAll (cvtSwapRB img) [] bgr = cvtSwapRB img from rfl,
    cvtSwapRB_cvtSwapRB], rfl⟩

/-- The output record of the concrete zero-face run used as witness. -/
def outRed : RunOutput :=
  { faces := []
    annotated := imgRed
    originalBuffer := [[(0, 0, 255)]]
    count := 0
    artifact := ⟨imgRed⟩
    filename := "face_detection_result_20260102_030405.png".data }

theorem zero_faces_annotated_eq_original_witness :
    tryBlock (Except.ok cascadeNone) imgRed 2 5 colorGreen ts0 = Except.ok outRed ∧
    outRed.annotated = imgRed ∧ outRed.count = 0 :=
  ⟨by rfl,
   zero_faces_annotated_eq_original (Except.ok cascadeNone) imgRed 2 5 colorGreen ts0
     outRed (by rfl) (by decide)⟩

theorem drawRow_get? (r : Region) (c : Pixel) (py : Nat) :
    ∀ (row : List Pixel) (px0 k : Nat),
      (drawRow r c py px0 row).get? k =
        (row.get? k).map (fun pix => if onBand r (px0 + k) py then c else pix) := by
  intro row
  induction row with
  | nil => intro px0 k; simp [drawRow]
  | cons pix rest ih =>
    intro px0 k
    cases k with
    | zero => simp [drawRow]
    | succ k =>
      rw [show px0 + (k + 1) = px0 + 1 + k by omega]
      simpa [drawRow] using ih (px0 + 1) k

theorem drawRows_get? (r : Region) (c : Pixel) :
    ∀ (rows : Img) (py0 k : Nat),
      (drawRows r c py0 rows).get? k =
        (rows.get? k).map (fun row => drawRow r c (py0 + k) 0 row) := by
  intro rows
  induction rows with
  | nil => intro py0 k; simp [drawRows]
  | cons row rest ih =>
    intro py0 k
    cases k with
    | zero => simp [drawRows]
    | succ k =>
      rw [show py0 + (k + 1) = py0 + 1 + k by omega]
      simpa [drawRows] using ih (py0 + 1) k

theorem getPx_drawRect (buf : Img) (r : Region) (c : Pixel) (px py : Nat) :
    getPx (drawRect buf r c) px py =
      (getPx buf px py).map (fun pix => if onBand r px py then c else pix) := by
  unfold getPx drawRect
  rw [drawRows_get?]
  cases buf.get? py with
  | none => rfl
  | some row => simpa using drawRow_get? r c py row 0 px

theorem getPx_annotateAll (faces : List Region) :
    ∀ (buf : Img) (c : Pixel) (px py : Nat) (pix : Pixel),
      getPx buf px py = some pix →
      getPx (annotateAll buf faces c) px py =
        some (if ∃ r ∈ faces, onBand r px py then c else pix) := by
  induction faces with
  | nil =>
    intro buf c px py pix h
    simpa [annotateAll] using h
  | cons r rest ih =>
    intro buf c px py pix h
    have h1 : getPx (drawRect buf r c) px py =
        some (if onBand r px py then c else pix) := by
      rw [getPx_drawRect, h]; rfl
    have h2 := ih (drawRect buf r c) c px py _ h1
    rw [show annotateAll buf (r :: rest) c = annotateAll (drawRect buf r c) rest c from rfl, h2]
    by_cases hb : onBand r px py <;>
      by_cases hr : ∃ x ∈ rest, onBand x px py <;>
        simp [hb, hr, List.exists_mem_cons_iff]

/-- C4: the pipeline draws on a copy: after any successful run the
buffer holding the decoded upload is unchanged (it is still exactly the
channel-swapped upload), and annotating any buffer with any region list
and colour yields a new image that recolours exactly the pixels lying on
some region's 2-pixel-wide outline band and preserves every other
pixel. -/
theorem rectangles_drawn_on_copy
    (cascadeLoad : Except (List Char) Cascade) (img : Img) (sf : ℚ) (mn : Nat)
    (color : List Char) (ts : Timestamp) (out : RunOutput)
    (hok : tryBlock cascadeLoad img sf mn color ts = Except.ok out) :
    out.originalBuffer = cvtSwapRB img ∧
    ∀ (buf : Img) (faces : List Region) (c : Pixel) (px py : Nat) (pix : Pixel),
      getPx buf px py = some pix →
      getPx (annotateAll buf faces c) px py =
        some (if ∃ r ∈ faces, onBand r px py then c else pix) := by
  obtain ⟨cas, bgr, -, -, rfl⟩ := tryBlock_ok_elim hok
  exact ⟨rfl, fun buf faces c px py pix h => getPx_annotateAll faces buf c px py pix h⟩

/-- A region comfortably larger than the 30-pixel floor. -/
def regionBig : Region :=
  ⟨5, 5, 40, 40⟩

theorem rectangles_drawn_on_copy_witness :
    outRed.originalBuffer = cvtSwapRB imgRed ∧
    getPx (annotateAll imgRed [regionBig] (0, 255, 0)) 0 0 =
      some (if ∃ r ∈ [regionBig], onBand r 0 0 then (0, 255, 0) else (255, 0, 0)) :=
  ⟨(rectangles_drawn_on_copy (Except.ok cascadeNone) imgRed 2 5 colorGreen ts0 outRed
      (by rfl)).1,
   (rectangles_drawn_on_copy (Except.ok cascadeNone) imgRed 2 5 colorGreen ts0 outRed
      (by rfl)).2 imgRed [regionBig] (0, 255, 0) 0 0 (255, 0, 0) (by decide)⟩

/-- C6 counterexample: with a correctly initialized cascade, the
malformed colour "#GGGGGG" makes `hex_to_bgr` fail, but the failure does
not propagate unhandled on a path of its own: the run renders exactly
the same error page as a run whose cascade initialization failed with
the ValueError text, i.e. it is caught by the same generic except
branch as the ConfigurationError path. -/
theorem malformed_color_same_path_counterexample :
    hex_to_bgr colorBad = none ∧
    runScript (some imgRed) (Except.ok cascadeNone) 2 5 colorBad ts0 =
      runScript (some imgRed)
        (Except.error ("invalid literal for int() with base 16".data)) 2 5 colorGreen ts0 :=
  ⟨by decide, by rfl⟩

/-- C6 (amended): the conversion utility performs no validation, so any
colour string it cannot parse makes the run fail; the failure is caught
by the same generic except branch as the configuration-error path and
surfaced through the same (misleading) model-loading error message,
rather than propagating unhandled. -/
theorem malformed_color_same_handler (cascade : Cascade) (img : Img) (sf : ℚ)
    (mn : Nat) (color : List Char) (ts : Timestamp)
    (hbad : hex_to_bgr color = none) :
    runScript (some img) (Except.ok cascade) sf mn color ts =
      Render.errorPage ("Error loading face detection model: ".data ++
        "invalid literal for int() with base 16".data) := by
  simp only [runScript, tryBlock, hbad]

theorem malformed_color_same_handler_witness :
    runScript (some imgRed) (Except.ok cascadeNone) 2 5 colorBad ts0 =
      Render.errorPage ("Error loading face detection model: ".data ++
        "invalid literal for int() with base 16".data) :=
  malformed_color_same_handler cascadeNone imgRed 2 5 colorBad ts0 (by decide)

theorem length_drawRow (r : Region) (c : Pixel) (py : Nat) :
    ∀ (px0 : Nat) (row : List Pixel), (drawRow r c py px0 row).length = row.length := by
  intro px0 row
  induction row generalizing px0 with
  | nil => rfl
  | cons pix rest ih => simp [drawRow, ih]

theorem length_drawRows (r : Region) (c : Pixel) :
    ∀ (py0 : Nat) (rows : Img), (drawRows r c py0 rows).length = rows.length := by
  intro py0 rows
  induction rows generalizing py0 with
  | nil => rfl
  | cons row rest ih => simp [drawRows, ih]

theorem dims_drawRect (buf : Img) (r : Region) (c : Pixel) :
    dims (drawRect buf r c) = dims buf := by
  cases buf with
  | nil => rfl
  | cons row rest => simp [dims, drawRect, drawRows, length_drawRow, length_drawRows]

theorem dims_annotateAll (faces : List Region) :
    ∀ (buf : Img) (c : Pixel), dims (annotateAll buf faces c) = dims buf := by
  induction faces with
  | nil => intro buf c; rfl
  | cons r rest ih =>
    intro buf c
    rw [show annotateAll buf (r :: rest) c = annotateAll (drawRect buf r c) rest c from rfl,
      ih, dims_drawRect]

theorem dims_cvtSwapRB (img : Img) : dims (cvtSwapRB img) = dims img := by
  cases img with
  | nil => rfl
  | cons row rest => simp [dims, cvtSwapRB]

/-- C8: every successful run delivers an artifact whose decoded pixel
grid has exactly the source image's dimensions, under the filename
face_detection_result_YYYYMMDD_HHMMSS.png built from the current
timestamp. -/
theorem artifact_dims_and_filename
    (cascadeLoad : Except (List Char) Cascade) (img : Img) (sf : ℚ) (mn : Nat)
    (color : List Char) (ts : Timestamp) (out : RunOutput)
    (hok : tryBlock cascadeLoad img sf mn color ts = Except.ok out) :
    dims (pngDecode out.artifact) = dims img ∧
    out.filename = "face_detection_result_".data ++ strftimeStamp ts ++ ".png".data := by
  obtain ⟨cas, bgr, -, -, rfl⟩ := tryBlock_ok_elim hok
  refine ⟨?_, rfl⟩
  show dims (cvtSwapRB (annotateAll (cvtSwapRB img) _ _)) = dims img
  rw [dims_cvtSwapRB, dims_annotateAll, dims_cvtSwapRB]

theorem artifact_dims_and_filename_witness :
    dims (pngDecode outRed.artifact) = dims imgRed ∧
    outRed.filename = "face_detection_result_".data ++ strftimeStamp ts0 ++ ".png".data :=
  artifact_dims_and_filename (Except.ok cascadeNone) imgRed 2 5 colorGreen ts0 outRed (by rfl)

/-- C10: every detector invocation of the pipeline passes the fixed
minimum-size floor (30, 30) regardless of upload or parameters, and
consequently every returned region is at least 30 pixels wide and 30
pixels tall. -/
theorem min_size_floor_thirty
    (cascadeLoad : Except (List Char) Cascade) (img : Img) (sf : ℚ) (mn : Nat)
    (color : List Char) (ts : Timestamp) (out : RunOutput)
    (hok : tryBlock cascadeLoad img sf mn color ts = Except.ok out) :
    (∃ face_cascade, cascadeLoad = Except.ok face_cascade ∧
      out.faces = detectMultiScale face_cascade (cvtBgrToGray (cvtSwapRB img)) sf mn (30, 30)) ∧
    ∀ r ∈ out.faces, 30 ≤ r.w ∧ 30 ≤ r.h := by
  obtain ⟨cas, bgr, hc, -, rfl⟩ := tryBlock_ok_elim hok
  refine ⟨⟨cas, hc, rfl⟩, ?_⟩
  intro r hr
  simp only [detectMultiScale, List.mem_map, List.mem_filter] at hr
  obtain ⟨cand, ⟨-, hfilt⟩, rfl⟩ := hr
  simp only [decide_eq_true_eq] at hfilt
  exact ⟨hfilt.2.1, hfilt.2.2⟩

/-- The output record of the concrete `cascadeTwo` run used as witness:
only the strongly supported 40-by-40 candidate survives, and the one
red pixel lies outside its outline band, so the image is unchanged. -/
def outTwo : RunOutput :=
  { faces := [regionBig]
    annotated := imgRed
    originalBuffer := [[(0, 0, 255)]]
    count := 1
    artifact := ⟨imgRed⟩
    filename := "face_detection_result_20260102_030405.png".data }

theorem min_size_floor_thirty_witness :
    30 ≤ regionBig.w ∧ 30 ≤ regionBig.h :=
  (min_size_floor_thirty (Except.ok cascadeTwo) imgRed 2 2 colorGreen ts0 outTwo
      (by rfl)).2 regionBig (by decide)

end FaceApp
